import Mathlib

/- Verification development for the SLIPS clearing-file scripts: a shallow
embedding of the fixed-width record decoding and dataset segmentation of
SLIPS_insertion.py, and of the totals calculation, retry loop, transaction
code remapping and branch auditing logic of SLIPS_recreation.py, together
with theorems about the claims of the specification. -/

/-- ASCII whitespace characters removed by the Python str.strip method. -/
def pySpace (c : Char) : Bool :=
  c == ' ' || c == '\t' || c == '\n' || c == '\r' || c == '\x0b' || c == '\x0c'

/-- Remove leading and trailing whitespace from a character list. -/
def stripChars (l : List Char) : List Char :=
  ((l.dropWhile pySpace).reverse.dropWhile pySpace).reverse

/-- The str.strip method on strings. -/
def pyStrip (s : String) : String :=
  String.mk (stripChars s.data)

/-- The str.upper method (ASCII characters). -/
def pyUpper (s : String) : String :=
  String.mk (s.data.map Char.toUpper)

/-- Numeric value of a list of decimal digit characters. -/
def digitsVal (l : List Char) : Nat :=
  l.foldl (fun a c => a * 10 + (c.toNat - 48)) 0

/-- Parse an optional sign followed by decimal digits, as the int
constructor accepts; none models a ValueError. -/
def parseSignDigits : List Char → Option Int
  | [] => none
  | c :: rest =>
    if c = '-' then
      if !rest.isEmpty && rest.all Char.isDigit then some (-(digitsVal rest : Int)) else none
    else if c = '+' then
      if !rest.isEmpty && rest.all Char.isDigit then some ((digitsVal rest : Int)) else none
    else
      if (c :: rest).all Char.isDigit then some ((digitsVal (c :: rest) : Int)) else none

/-- Amount normalisation of calculate_totals_and_hash for string amounts:
int(amount.strip()) if amount.strip() else 0, with a ValueError from int
coercing to 0. -/
def amountToInt (amount : String) : Int :=
  let s := stripChars amount.data
  if s.isEmpty then 0
  else
    match parseSignDigits s with
    | some v => v
    | none => 0

/-- Hash-total contribution of one destination account in
calculate_totals_and_hash: the numeric value of the digit characters of
the account, 0 when the account is empty or has no digit characters. -/
def destHashContribution (dest : String) : Nat :=
  if dest.isEmpty then 0
  else
    let an := dest.data.filter Char.isDigit
    if an.isEmpty then 0 else digitsVal an

/-- A transaction row as fetched for the analyzer: the columns
(Transaction_Code, Amount, Destination_Ac_No). -/
structure TxnRow where
  code : String
  amount : String
  destAccount : String
deriving DecidableEq

/-- The amount strings skipped entirely by calculate_totals_and_hash. -/
def zeroAmounts : List String := ["0", "000000000000"]

/-- Accumulator of the transaction loop of calculate_totals_and_hash. -/
structure CalcState where
  creditValues : List Int
  debitValues : List Int
  hashTotal : Nat
  unknownCodes : List String
deriving DecidableEq

/-- The code normalisation str(transaction_code).strip() when the code is
truthy, "" otherwise. -/
def pyCodeStr (code : String) : String :=
  if code.isEmpty then "" else pyStrip code

/-- Insertion into the unknown-codes set. -/
def addUnknown (c : String) (l : List String) : List String :=
  if c ∈ l then l else l ++ [c]

/-- One iteration of the transaction loop of calculate_totals_and_hash:
skip the zero-amount literals entirely, otherwise add the destination
account digits to the hash total and classify the code against the code
table, collecting codes with no table entry in the unknown set. The code
table is a list of (code, type) pairs mirroring transaction_codes.json. -/
def calcStep (codes : List (String × String)) (st : CalcState) (t : TxnRow) : CalcState :=
  if t.amount ∈ zeroAmounts then st
  else
    let amountInt := amountToInt t.amount
    let st1 : CalcState := { st with hashTotal := st.hashTotal + destHashContribution t.destAccount }
    let codeStr := pyCodeStr t.code
    match List.lookup codeStr codes with
    | some ty =>
      if pyUpper ty = "C" then { st1 with creditValues := st1.creditValues ++ [amountInt] }
      else if pyUpper ty = "D" then { st1 with debitValues := st1.debitValues ++ [amountInt] }
      else st1
    | none =>
      if codeStr.isEmpty then st1
      else { st1 with unknownCodes := addUnknown codeStr st1.unknownCodes }

/-- Initial accumulator of the transaction loop. -/
def calcInit : CalcState := ⟨[], [], 0, []⟩

/-- The transaction loop of calculate_totals_and_hash over a branch's
transaction rows. -/
def calcCore (codes : List (String × String)) (txns : List TxnRow) : CalcState :=
  txns.foldl (calcStep codes) calcInit

/-- Possible outcomes of calculate_totals_and_hash: the
(creditTotal, creditCount, debitTotal, debitCount, hashTotal) tuple, the
("REFETCH_NEEDED", rows) signal, or process termination via sys.exit(1). -/
inductive CalcResult where
  | totals (creditTotal : Int) (creditCount : Nat) (debitTotal : Int) (debitCount : Nat) (hashTotal : Nat)
  | refetchNeeded (rows : List TxnRow)
  | exit1
deriving DecidableEq

/-- Whether a calculator outcome is the totals tuple. -/
def CalcResult.isTotals : CalcResult → Bool
  | .totals _ _ _ _ _ => true
  | _ => false

/-- Whether a calculator outcome is the REFETCH_NEEDED signal. -/
def CalcResult.isRefetch : CalcResult → Bool
  | .refetchNeeded _ => true
  | _ => false

/-- External effects reached by the unknown-code branch of
calculate_totals_and_hash: the operator's answer to the confirmation
prompt, whether the database update of the codes succeeds, and the rows
returned by the fresh refetch connection (none models a connection that
could not be established). -/
structure AnalyzerEnv where
  userConfirms : Bool
  dbUpdateSucceeds : Bool
  refetchConn : Option (List TxnRow)
deriving DecidableEq

/-- Python sum over a list of integers. -/
def sumInts (l : List Int) : Int := l.foldl (fun a b => a + b) 0

/-- TransactionAnalyzer.calculate_totals_and_hash: run the transaction
loop; with no unknown codes return the totals tuple, otherwise look for
applicable mappings (entries of transaction_codes_mapping.json whose old
code is in the unknown set), and either terminate the process (no
applicable mapping, operator refusal, failed update, failed refetch
connection) or return the REFETCH_NEEDED signal carrying the refetched
rows. The mapping is a list of (old, new) pairs. -/
def calculate_totals_and_hash (codes mapping : List (String × String)) (env : AnalyzerEnv) (txns : List TxnRow) (branchCode : Option String) : CalcResult :=
  let st := calcCore codes txns
  if st.unknownCodes.isEmpty then
    .totals (sumInts st.creditValues) st.creditValues.length (sumInts st.debitValues) st.debitValues.length st.hashTotal
  else
    let applicable := mapping.filter (fun m => decide (m.1 ∈ st.unknownCodes))
    if applicable.isEmpty then .exit1
    else if env.userConfirms then
      if env.dbUpdateSucceeds then
        match branchCode with
        | some _ =>
          match env.refetchConn with
          | some rows => .refetchNeeded rows
          | none => .exit1
        | none => .refetchNeeded []
      else .exit1
    else .exit1

/-- A {dir}_BranchHeader row as read and updated by
BranchService._process_single_branch. -/
structure BranchRow where
  id : Nat
  branchCode : String
  creditTotal : Int
  numCreditItems : Nat
  debitTotal : Int
  numDebitItems : Nat
  accountHashTotal : Nat
  status : Nat
deriving DecidableEq

/-- Outcome of _process_single_branch: True, "REFETCH_NEEDED", False, or
process termination propagating out of the analyzer. -/
inductive BranchOutcome where
  | ok
  | refetch
  | exited
  | failed
deriving DecidableEq

/-- BranchService._process_single_branch: with no transactions fetched for
the branch, set Status = 1 and nothing else; otherwise run the analyzer
and either write all totals columns together with Status = 1, propagate
the REFETCH_NEEDED signal leaving the row unchanged, or terminate.
branchConnOk models whether the per-branch database connection opened. -/
def process_single_branch (codes mapping : List (String × String)) (branchConnOk : Bool) (env : AnalyzerEnv) (row : BranchRow) (txns : List TxnRow) : BranchOutcome × BranchRow :=
  if !branchConnOk then (.failed, row)
  else if txns.isEmpty then (.ok, { row with status := 1 })
  else
    match calculate_totals_and_hash codes mapping env txns (some row.branchCode) with
    | .totals ct cc dt dc ht =>
      (.ok, { row with creditTotal := ct, numCreditItems := cc, debitTotal := dt,
                       numDebitItems := dc, accountHashTotal := ht, status := 1 })
    | .refetchNeeded _ => (.refetch, row)
    | .exit1 => (.exited, row)

/-- Result of one _process_branches_with_refetch pass: "COMPLETE" (or
True), "REFETCH_NEEDED", or False. -/
inductive PassOutcome where
  | complete
  | refetchNeeded
  | failed
deriving DecidableEq

/-- Observable result of update_branch_status_and_totals: the returned
boolean, how many passes were attempted, and whether the max-retries
exhaustion message was printed. -/
structure RetryResult where
  success : Bool
  attempts : Nat
  exhaustedReported : Bool
deriving DecidableEq

/-- The for-loop of update_branch_status_and_totals: at most remaining
further passes, attempt numbering the pass about to run. -/
def retryGo (passes : Nat → PassOutcome) : Nat → Nat → RetryResult
  | 0, attempt => { success := false, attempts := attempt, exhaustedReported := true }
  | remaining + 1, attempt =>
    match passes attempt with
    | .complete => { success := true, attempts := attempt + 1, exhaustedReported := false }
    | .refetchNeeded => retryGo passes remaining (attempt + 1)
    | .failed => { success := false, attempts := attempt + 1, exhaustedReported := false }

/-- The max_retries constant of update_branch_status_and_totals. -/
def maxRetries : Nat := 3

/-- BranchService.update_branch_status_and_totals: run
_process_branches_with_refetch passes (modelled by their outcomes) up to
max_retries times, retrying only on REFETCH_NEEDED. -/
def update_branch_status_and_totals (passes : Nat → PassOutcome) : RetryResult :=
  retryGo passes maxRetries 0

/-- CodeMappingService.update_transaction_codes_in_database acting on the
Transaction_Code column of the direction-scoped transaction table: one
UPDATE per mapping entry with truthy old and new codes whose old code is
in the observed unknown set, rewriting every row whose current code
equals the old code. rows is the column of Transaction_Code values. -/
def update_transaction_codes_in_database (mapping : List (String × String)) (unknown : List String) (rows : List String) : List String :=
  mapping.foldl
    (fun rs m =>
      if !m.1.isEmpty && !m.2.isEmpty && decide (m.1 ∈ unknown) then
        rs.map (fun c => if c = m.1 then m.2 else c)
      else rs)
    rows

/-- Per-code image of the sequence of UPDATE statements issued by
update_transaction_codes_in_database. -/
def codeImage : List (String × String) → List String → String → String
  | [], _, c => c
  | m :: ms, unknown, c =>
    codeImage ms unknown
      (if !m.1.isEmpty && !m.2.isEmpty && decide (m.1 ∈ unknown) then
        (if c = m.1 then m.2 else c)
      else c)

/-- A {dir}_BranchHeader row as selected by
BranchInspector.check_and_filter. -/
structure BhSelRow where
  id : Nat
  branchControlId : String
  fieldId : String
  fileDate : String
  bankCode : String
  branchCode : String
  creditTotal : Int
  numCreditItems : Nat
  debitTotal : Int
  numDebitItems : Nat
  accountHashTotal : Nat
  status : Nat
  fileName : String
deriving DecidableEq

/-- The three problem messages check_and_filter can append, keyed by the
branch code they interpolate: "has 0 transactions", "has only zero-amount
transactions ('0' or '000000000000')", and "has only 1 transaction with
amount '0' or '000000000000'". -/
inductive BranchProblem where
  | zeroTransactions (branchCode : String)
  | onlyZeroAmount (branchCode : String)
  | singleZeroAmount (branchCode : String)
deriving DecidableEq

/-- COUNT(*) of the transactions of one branch; transaction-table rows are
(branch-field value, Amount) pairs. -/
def countBranchTxns (table : List (String × String)) (bc : String) : Nat :=
  (table.filter (fun r => decide (r.1 = bc))).length

/-- COUNT(*) of the transactions of one branch whose Amount is not '0',
not '000000000000' and not the empty string (amounts are never NULL in
the model). -/
def countNonZeroTxns (table : List (String × String)) (bc : String) : Nat :=
  (table.filter (fun r => decide (r.1 = bc ∧ ¬ r.2 ∈ zeroAmounts ∧ r.2 ≠ ""))).length

/-- The if/elif classification chain of check_and_filter applied to one
branch's total and non-zero transaction counts. -/
def classify_branch (bc : String) (total nonZero : Nat) : Option BranchProblem :=
  if total = 0 then some (.zeroTransactions bc)
  else if nonZero = 0 then some (.onlyZeroAmount bc)
  else if total = 1 ∧ nonZero = 0 then some (.singleZeroAmount bc)
  else none

/-- BranchInspector.check_and_filter: with no branch headers return
(False, [], []); otherwise classify each header in order, collecting
problems and the filtered list of problem-free headers, and return
whether any problem was found together with both lists. -/
def check_and_filter (table : List (String × String)) (bhs : List BhSelRow) : Bool × List BranchProblem × List BhSelRow :=
  if bhs.isEmpty then (false, [], [])
  else
    let res := bhs.foldl
      (fun acc bh =>
        match classify_branch bh.branchCode (countBranchTxns table bh.branchCode) (countNonZeroTxns table bh.branchCode) with
        | some p => (acc.1 ++ [p], acc.2)
        | none => (acc.1, acc.2 ++ [bh]))
      ([], [])
    (decide (0 < res.1.length), res.1, res.2)

/-- The Python pySlice line[a:b] on a character list. -/
def pySlice (l : List Char) (a b : Nat) : List Char :=
  (l.take b).drop a

/-- The file-header record of RecordParser.parse_header1. -/
structure Header1Rec where
  BankControlId : List Char
  FieldId : List Char
  Date : List Char
  BankCode : List Char
  NoOfBatches : List Char
  NoOfTransactions : List Char
  FileName : String
deriving DecidableEq

/-- RecordParser.parse_header1: fixed-width slicing of a file header. -/
def parse_header1 (line : List Char) (fn : String) : Header1Rec :=
  { BankControlId := pySlice line 0 4
    FieldId := pySlice line 4 7
    Date := pySlice line 7 12
    BankCode := pySlice line 12 16
    NoOfBatches := pySlice line 16 19
    NoOfTransactions := pySlice line 19 25
    FileName := fn }

/-- The branch-header record of RecordParser.parse_header2. -/
structure Header2Rec where
  BranchControlId : List Char
  FieldId : List Char
  Date : List Char
  BankCode : List Char
  BranchCode : List Char
  CreditTotal : List Char
  NoOfCreditItems : List Char
  DebitTotal : List Char
  NoOfDebitItems : List Char
  HashTotal : List Char
  FileName : String
deriving DecidableEq

/-- RecordParser.parse_header2: fixed-width slicing of a branch header. -/
def parse_header2 (line : List Char) (fn : String) : Header2Rec :=
  { BranchControlId := pySlice line 0 4
    FieldId := pySlice line 4 7
    Date := pySlice line 7 12
    BankCode := pySlice line 12 16
    BranchCode := pySlice line 16 19
    CreditTotal := pySlice line 19 34
    NoOfCreditItems := pySlice line 34 40
    DebitTotal := pySlice line 40 55
    NoOfDebitItems := pySlice line 55 61
    HashTotal := pySlice line 61 79
    FileName := fn }

/-- The transaction record of RecordParser.parse_data_record. -/
structure DataRecord where
  TransactionId : List Char
  DestBank : List Char
  DestBranch : List Char
  DestAccount : List Char
  DestName : List Char
  ReturnCode : List Char
  Filler : List Char
  ReturnDate : List Char
  TransactionCode : List Char
  TransactionDesc : String
  Amount : List Char
  Currency : List Char
  OriginatingBankNo : List Char
  OriginatingBranchNo : List Char
  OriginatingAccountNo : List Char
  OriginatorAccountName : List Char
  Particular : List Char
  Reference : List Char
  ValueDate : List Char
  SecurityCheck : List Char
  FileName : String
  AmountInt : List Char
deriving DecidableEq

/-- RecordParser.parse_data_record: fixed-width slicing of a transaction
line; the description is looked up in the transaction-code table (a list
of (code, desc) pairs), defaulting to "Unknown"; AmountInt is the
stripped amount field. Numeric fields stay raw substrings. -/
def parse_data_record (codesDesc : List (String × String)) (line : List Char) (fn : String) : DataRecord :=
  let code := pySlice line 43 45
  let desc :=
    match List.lookup (String.mk code) codesDesc with
    | some d => d
    | none => "Unknown"
  { TransactionId := pySlice line 0 4
    DestBank := pySlice line 4 8
    DestBranch := pySlice line 8 11
    DestAccount := pySlice line 11 23
    DestName := pySlice line 23 43
    ReturnCode := pySlice line 45 47
    Filler := pySlice line 47 48
    ReturnDate := pySlice line 48 54
    TransactionCode := code
    TransactionDesc := desc
    Amount := pySlice line 54 66
    Currency := pySlice line 66 69
    OriginatingBankNo := pySlice line 69 73
    OriginatingBranchNo := pySlice line 73 76
    OriginatingAccountNo := pySlice line 76 88
    OriginatorAccountName := pySlice line 88 108
    Particular := pySlice line 108 123
    Reference := pySlice line 123 138
    ValueDate := pySlice line 138 144
    SecurityCheck := pySlice line 144 150
    FileName := fn
    AmountInt := stripChars (pySlice line 54 66) }

/-- The positional fields of a parsed transaction record, concatenated in
offset order (offsets 0 through 150). -/
def concatTxnFields (r : DataRecord) : List Char :=
  r.TransactionId ++ (r.DestBank ++ (r.DestBranch ++ (r.DestAccount ++ (r.DestName ++
    (r.TransactionCode ++ (r.ReturnCode ++ (r.Filler ++ (r.ReturnDate ++ (r.Amount ++
    (r.Currency ++ (r.OriginatingBankNo ++ (r.OriginatingBranchNo ++
    (r.OriginatingAccountNo ++ (r.OriginatorAccountName ++ (r.Particular ++
    (r.Reference ++ (r.ValueDate ++ r.SecurityCheck)))))))))))))))))

/-- First index at which the needle occurs as a prefix of a suffix of the
haystack, none when it never occurs. -/
def findSubIdx (needle : List Char) : List Char → Option Nat
  | [] => if needle.isEmpty then some 0 else none
  | c :: rest =>
    if needle.isPrefixOf (c :: rest) then some 0
    else (findSubIdx needle rest).map (fun i => i + 1)

/-- dataset.find(marker, pos): the least index at or after pos where the
marker occurs in the dataset, none when it does not occur there. -/
def findMarkerFrom (ds marker : List Char) (pos : Nat) : Option Nat :=
  (findSubIdx marker (ds.drop pos)).map (fun i => i + pos)

/-- The file-header marker. -/
def marker5555 : List Char := "5555".data

/-- The branch-header marker. -/
def marker4444 : List Char := "4444".data

/-- The transaction marker. -/
def marker0000 : List Char := "0000".data

/-- RecordParser.find_transactions: consume contiguous full 180-character
records starting with the transaction marker, stopping at the first
position that does not begin such a record. -/
def find_transactions (codesDesc : List (String × String)) (ds : List Char) (pos : Nat) (fn : String) : List DataRecord :=
  if h : pos + 180 ≤ ds.length then
    if pySlice ds pos (pos + 4) = marker0000 then
      parse_data_record codesDesc (pySlice ds pos (pos + 180)) fn
        :: find_transactions codesDesc ds (pos + 180) fn
    else []
  else []
termination_by ds.length - pos
decreasing_by omega

/-- One parsed branch group of find_branch_data; start records the byte
offset of its "4444" marker, so the group occupies the byte range
[start, start + 180 + 180 * txns.length). -/
structure BranchGroup where
  start : Nat
  header2 : Header2Rec
  txns : List DataRecord
deriving DecidableEq

/-- The break condition of the branch loop: a file-header marker was found
strictly before the next branch marker. -/
def fileMarkerBreak (n5 : Option Nat) (n4 : Nat) : Bool :=
  match n5 with
  | some v => decide (v < n4)
  | none => false

/-- RecordParser.find_branch_data: while the cursor is inside the buffer,
find the next branch marker (stopping when none is left, when a
file-header marker precedes it, or when fewer than 180 characters
remain), decode the branch header and its contiguous transactions, and
advance the cursor past all of them before searching again. -/
def find_branch_data (codesDesc : List (String × String)) (ds : List Char) (start_pos : Nat) (fn : String) : List BranchGroup :=
  if hp : start_pos < ds.length then
    match h4 : findMarkerFrom ds marker4444 start_pos with
    | none => []
    | some n4 =>
      if fileMarkerBreak (findMarkerFrom ds marker5555 start_pos) n4 then []
      else if n4 + 180 ≤ ds.length then
        let txns := find_transactions codesDesc ds (n4 + 180) fn
        { start := n4, header2 := parse_header2 (pySlice ds n4 (n4 + 180)) fn, txns := txns }
          :: find_branch_data codesDesc ds (n4 + 180 + txns.length * 180) fn
      else []
  else []
termination_by ds.length - start_pos
decreasing_by
  simp only [findMarkerFrom, Option.map_eq_some'] at h4
  obtain ⟨i, hfind, hni⟩ := h4
  omega

/-- One parsed file group of RecordParser.parse_dataset. -/
structure ParsedGroup where
  type : List Char
  header1 : Header1Rec
  branches : List BranchGroup
deriving DecidableEq

/-- RecordParser.parse_dataset: find the first file-header marker (none
means no data), decode the 180-character header starting there when it
fits, and scan for branch groups from the position just after it. -/
def parse_dataset (codesDesc : List (String × String)) (ds : List Char) (fn : String) : List ParsedGroup :=
  match findMarkerFrom ds marker5555 0 with
  | none => []
  | some first5555 =>
    if first5555 + 180 ≤ ds.length then
      let h1 := parse_header1 (pySlice ds first5555 (first5555 + 180)) fn
      [{ type := h1.FieldId, header1 := h1,
         branches := find_branch_data codesDesc ds (first5555 + 180) fn }]
    else []

/-- Concrete code table used by witnesses: one credit code. -/
def codesW : List (String × String) := [("21", "C")]

/-- Concrete mapping table used by witnesses: 99 remaps to 21. -/
def mappingW : List (String × String) := [("99", "21")]

/-- Concrete analyzer environment used by witnesses: the operator
confirms, the update succeeds and the refetch connection returns no
rows. -/
def envW : AnalyzerEnv := ⟨true, true, some []⟩

/-- Concrete transaction list whose only code is unknown to an empty code
table. -/
def txnsUnknownW : List TxnRow := [⟨"99", "000000000100", "123"⟩]

/-- Concrete pending branch row with non-zero stored totals. -/
def rowW : BranchRow := ⟨7, "001", 500, 7, 300, 4, 999, 0⟩

/-- Concrete transaction table: branch 001 has a single transaction of
amount "0". -/
def tableW : List (String × String) := [("001", "0")]

/-- Concrete branch header row for branch 001. -/
def bhW : BhSelRow := ⟨1, "4444", "IN ", "25001", "7010", "001", 0, 0, 0, 0, 0, 0, "f"⟩

/-- Concrete buffer in which a file-header marker precedes the first
branch-header marker. -/
def dsW : List Char := "55554444".data

/-- Concrete 180-character transaction line whose trailing 30 characters
are not blank. -/
def lineW : List Char := marker0000 ++ List.replicate 176 'X'

/-- A zero-amount transaction leaves the transaction-loop accumulator
unchanged. -/
theorem calcStep_zero_amount (codes : List (String × String)) (st : CalcState) (t : TxnRow) (h : t.amount ∈ zeroAmounts) : calcStep codes st t = st := by
  simp [calcStep, h]

/-- Claim C3: a transaction whose amount string is exactly "0" or exactly
"000000000000" is excluded entirely by the totals calculation: deleting
it from the transaction list changes neither the loop accumulator (credit
and debit values and counts, hash total, unknown codes) nor the overall
result of calculate_totals_and_hash; in particular it contributes to no
total, no count, and nothing to the hash total. -/
theorem claim3_zero_amount_excluded (codes mapping : List (String × String)) (env : AnalyzerEnv) (bc : Option String) (pre post : List TxnRow) (t : TxnRow) (h : t.amount ∈ zeroAmounts) :
    calcCore codes (pre ++ t :: post) = calcCore codes (pre ++ post) ∧
    calculate_totals_and_hash codes mapping env (pre ++ t :: post) bc =
      calculate_totals_and_hash codes mapping env (pre ++ post) bc := by
  have hc : calcCore codes (pre ++ t :: post) = calcCore codes (pre ++ post) := by
    simp only [calcCore, List.foldl_append, List.foldl_cons]
    rw [calcStep_zero_amount codes _ t h]
  exact ⟨hc, by simp only [calculate_totals_and_hash, hc]⟩

/-- Witness for C3: inserting a "0"-amount transaction into a concrete
credit transaction list changes nothing. -/
theorem claim3_witness :
    calcCore codesW ([⟨"21", "000000010000", "12"⟩] ++ ⟨"21", "0", "999"⟩ :: []) =
      calcCore codesW ([⟨"21", "000000010000", "12"⟩] ++ []) ∧
    calculate_totals_and_hash codesW mappingW envW ([⟨"21", "000000010000", "12"⟩] ++ ⟨"21", "0", "999"⟩ :: []) (some ("001")) =
      calculate_totals_and_hash codesW mappingW envW ([⟨"21", "000000010000", "12"⟩] ++ []) (some ("001")) :=
  claim3_zero_amount_excluded codesW mappingW envW (some ("001")) _ _ _ (by decide)

/-- Claim C10: the no-op exclusion matches only the exact strings "0" and
"000000000000": any other amount is processed — the destination-account
digits are added to the hash total, and when the code's table entry is of
type C (resp. D) the coerced integer amount is appended to the credit
(resp. debit) values, incrementing that count; the zero-like amounts "",
" 0", "00" and the unparseable "abc" all coerce to integer 0. -/
theorem claim10_near_zero_processed (codes : List (String × String)) (st : CalcState) (t : TxnRow) (ty : String)
    (h : ¬ t.amount ∈ zeroAmounts)
    (hl : List.lookup (pyCodeStr t.code) codes = some ty) :
    (calcStep codes st t).hashTotal = st.hashTotal + destHashContribution t.destAccount ∧
    (pyUpper ty = "C" →
      calcStep codes st t =
        { st with hashTotal := st.hashTotal + destHashContribution t.destAccount,
                  creditValues := st.creditValues ++ [amountToInt t.amount] }) ∧
    (pyUpper ty = "D" →
      calcStep codes st t =
        { st with hashTotal := st.hashTotal + destHashContribution t.destAccount,
                  debitValues := st.debitValues ++ [amountToInt t.amount] }) ∧
    amountToInt ("") = 0 ∧ amountToInt (" 0") = 0 ∧ amountToInt ("00") = 0 ∧ amountToInt ("abc") = 0 := by
  refine ⟨?_, ?_, ?_, by decide, by decide, by decide, by decide⟩
  · simp only [calcStep, h, if_false, hl]
    split
    · rfl
    · split <;> rfl
  · intro hC
    simp only [calcStep, h, if_false, hl, hC, if_pos]
  · intro hD
    have hCD : ¬ pyUpper ty = "C" := by
      intro hC
      rw [hC] at hD
      exact absurd hD (by decide)
    simp only [calcStep, h, if_false, hl, hD, hCD, if_pos]
    rw [if_neg (by decide)]

/-- Witness for C10: a blank-amount credit transaction is counted (amount
coerced to 0) and its destination digits are hashed. -/
theorem claim10_witness :
    (calcStep codesW calcInit ⟨"21", "", "AB1"⟩).hashTotal = calcInit.hashTotal + destHashContribution ("AB1") ∧
    calcStep codesW calcInit ⟨"21", "", "AB1"⟩ =
      { calcInit with hashTotal := calcInit.hashTotal + destHashContribution ("AB1"),
                      creditValues := calcInit.creditValues ++ [amountToInt ("")] } ∧
    amountToInt ("") = 0 :=
  ⟨(claim10_near_zero_processed codesW calcInit ⟨"21", "", "AB1"⟩ ("C") (by decide) (by decide)).1,
   (claim10_near_zero_processed codesW calcInit ⟨"21", "", "AB1"⟩ ("C") (by decide) (by decide)).2.1 (by decide),
   (claim10_near_zero_processed codesW calcInit ⟨"21", "", "AB1"⟩ ("C") (by decide) (by decide)).2.2.2.1⟩

/-- Claim C1 counterexample: for the concrete transaction list whose code
"99" is absent from an empty code table and has no applicable mapping
entry, the collected unknown-code set is the non-empty {"99"}, yet the
calculator terminates the whole process via sys.exit(1): nothing — in
particular no signal carrying the unknown-code set — is returned to the
caller. -/
theorem claim1_counterexample :
    (calcCore [] txnsUnknownW).unknownCodes = [("99")] ∧
    calculate_totals_and_hash [] [] envW txnsUnknownW (some ("001")) = CalcResult.exit1 := by
  decide

/-- Claim C1 (amended): whenever the unknown-code set collected by the
transaction loop is non-empty, calculate_totals_and_hash never returns
the totals tuple: it either returns the REFETCH_NEEDED signal (which
carries the refetched rows, not the unknown-code set) or terminates the
process via sys.exit(1). -/
theorem claim1_no_totals_on_unknown (codes mapping : List (String × String)) (env : AnalyzerEnv) (txns : List TxnRow) (bc : Option String)
    (h : (calcCore codes txns).unknownCodes ≠ []) :
    (calculate_totals_and_hash codes mapping env txns bc).isTotals = false ∧
    ((calculate_totals_and_hash codes mapping env txns bc).isRefetch = true ∨
      calculate_totals_and_hash codes mapping env txns bc = CalcResult.exit1) := by
  have hne : (calcCore codes txns).unknownCodes.isEmpty = false := by
    cases hcc : (calcCore codes txns).unknownCodes with
    | nil => exact absurd hcc h
    | cons a l => rfl
  constructor <;>
  · simp only [calculate_totals_and_hash, hne, Bool.false_eq_true, if_false]
    split
    · simp [CalcResult.isTotals, CalcResult.isRefetch]
    · split
      · split
        · split
          · split <;> simp [CalcResult.isTotals, CalcResult.isRefetch]
          · simp [CalcResult.isTotals, CalcResult.isRefetch]
        · simp [CalcResult.isTotals, CalcResult.isRefetch]
      · simp [CalcResult.isTotals, CalcResult.isRefetch]

/-- Witness for C1 (amended) at a concrete run with an applicable mapping,
operator confirmation and a successful refetch. -/
theorem claim1_witness :
    (calculate_totals_and_hash [] mappingW envW txnsUnknownW (some ("001"))).isTotals = false ∧
    ((calculate_totals_and_hash [] mappingW envW txnsUnknownW (some ("001"))).isRefetch = true ∨
      calculate_totals_and_hash [] mappingW envW txnsUnknownW (some ("001")) = CalcResult.exit1) :=
  claim1_no_totals_on_unknown [] mappingW envW txnsUnknownW (some ("001")) (by decide)

/-- Claim C2 counterexample: the concrete pending branch row with stored
credit total 500 whose transaction fetch returns zero rows is marked
Status = 1 with every stored totals column left untouched — its credit
total stays 500 instead of being set to zero. -/
theorem claim2_counterexample :
    process_single_branch [] [] true envW rowW [] = (BranchOutcome.ok, { rowW with status := 1 }) ∧
    ({ rowW with status := 1 } : BranchRow).creditTotal = 500 := by
  decide

/-- Claim C2 (amended): for every branch whose transaction fetch returns
zero rows (with the per-branch connection open), _process_single_branch
immediately returns True having set only Status to 1 — all totals
columns keep their stored values, and the totals calculator is never
invoked (the result does not depend on the code table, the mapping or
the analyzer environment). -/
theorem claim2_empty_branch (codes mapping : List (String × String)) (env : AnalyzerEnv) (row : BranchRow) (txns : List TxnRow)
    (h : txns = []) :
    process_single_branch codes mapping true env row txns = (BranchOutcome.ok, { row with status := 1 }) := by
  subst h
  rfl

/-- Witness for C2 (amended) at a concrete all-zero pending row. -/
theorem claim2_witness :
    process_single_branch codesW mappingW true envW ⟨1, "002", 0, 0, 0, 0, 0, 0⟩ [] =
      (BranchOutcome.ok, { (⟨1, "002", 0, 0, 0, 0, 0, 0⟩ : BranchRow) with status := 1 }) :=
  claim2_empty_branch codesW mappingW envW ⟨1, "002", 0, 0, 0, 0, 0, 0⟩ [] rfl

/-- The attempt counter of the retry loop grows by at most the remaining
pass budget. -/
theorem retryGo_attempts_le (passes : Nat → PassOutcome) :
    ∀ remaining attempt, (retryGo passes remaining attempt).attempts ≤ attempt + remaining
  | 0, attempt => by simp [retryGo]
  | remaining + 1, attempt => by
    simp only [retryGo]
    cases passes attempt with
    | complete => simp
    | refetchNeeded =>
      have ih := retryGo_attempts_le passes remaining (attempt + 1)
      dsimp only
      omega
    | failed => simp

/-- A run of passes that all signal refetch-needed exhausts the budget. -/
theorem retryGo_all_refetch (passes : Nat → PassOutcome) :
    ∀ remaining attempt,
      (∀ i, attempt ≤ i → i < attempt + remaining → passes i = PassOutcome.refetchNeeded) →
      retryGo passes remaining attempt = ⟨false, attempt + remaining, true⟩
  | 0, attempt, _ => by simp [retryGo]
  | remaining + 1, attempt, h => by
    have hp : passes attempt = PassOutcome.refetchNeeded := h attempt (Nat.le_refl _) (by omega)
    have ih := retryGo_all_refetch passes remaining (attempt + 1)
      (fun i h1 h2 => h i (by omega) (by omega))
    simp only [retryGo, hp, ih]
    congr 1
    omega

/-- Claim C5: update_branch_status_and_totals makes at most 3 outer
attempts; when every pass within the budget signals refetch-needed the
loop prints the max-retries exhaustion report (which names the attempt
budget) and returns False — the operation fails rather than marking
anything reconciled. -/
theorem claim5_retry_budget (passes : Nat → PassOutcome) :
    (update_branch_status_and_totals passes).attempts ≤ 3 ∧
    ((∀ i, i < 3 → passes i = PassOutcome.refetchNeeded) →
      (update_branch_status_and_totals passes).success = false ∧
      (update_branch_status_and_totals passes).exhaustedReported = true) := by
  constructor
  · simpa [update_branch_status_and_totals, maxRetries] using retryGo_attempts_le passes 3 0
  · intro hall
    have h := retryGo_all_refetch passes 3 0 (fun i _ h2 => hall i (by omega))
    simp [update_branch_status_and_totals, maxRetries, h]

/-- Witness for C5 with every pass refetching. -/
theorem claim5_witness :
    (update_branch_status_and_totals (fun _ => PassOutcome.refetchNeeded)).attempts ≤ 3 ∧
    (update_branch_status_and_totals (fun _ => PassOutcome.refetchNeeded)).success = false ∧
    (update_branch_status_and_totals (fun _ => PassOutcome.refetchNeeded)).exhaustedReported = true :=
  ⟨(claim5_retry_budget (fun _ => PassOutcome.refetchNeeded)).1,
   ((claim5_retry_budget (fun _ => PassOutcome.refetchNeeded)).2 (fun i _ => rfl)).1,
   ((claim5_retry_budget (fun _ => PassOutcome.refetchNeeded)).2 (fun i _ => rfl)).2⟩

/-- The UPDATE sequence acts on the Transaction_Code column pointwise:
each row's final code is a function of its current code alone. -/
theorem update_codes_eq_map (unknown : List String) :
    ∀ (mapping : List (String × String)) (rows : List String),
      update_transaction_codes_in_database mapping unknown rows = rows.map (codeImage mapping unknown)
  | [], rows => by
    have hid : codeImage [] unknown = id := funext (fun c => rfl)
    simp [update_transaction_codes_in_database, hid]
  | m :: ms, rows => by
    by_cases hc : (m.1.isEmpty = false ∧ m.2.isEmpty = false) ∧ m.1 ∈ unknown
    · have hstep : update_transaction_codes_in_database (m :: ms) unknown rows =
          update_transaction_codes_in_database ms unknown (rows.map (fun c => if c = m.1 then m.2 else c)) := by
        simp [update_transaction_codes_in_database, hc]
      rw [hstep, update_codes_eq_map unknown ms, List.map_map]
      have hfun : (codeImage ms unknown ∘ fun c => if c = m.1 then m.2 else c) = codeImage (m :: ms) unknown := by
        funext c
        simp [codeImage, hc, Function.comp]
      rw [hfun]
    · have hstep : update_transaction_codes_in_database (m :: ms) unknown rows =
          update_transaction_codes_in_database ms unknown rows := by
        simp [update_transaction_codes_in_database, hc]
      rw [hstep, update_codes_eq_map unknown ms]
      have hfun : codeImage ms unknown = codeImage (m :: ms) unknown := by
        funext c
        simp [codeImage, hc]
      rw [hfun]

/-- A code outside the observed unknown set is a fixed point of the
UPDATE sequence. -/
theorem codeImage_not_mem (unknown : List String) (c : String) (hc : ¬ c ∈ unknown) :
    ∀ mapping, codeImage mapping unknown c = c
  | [] => rfl
  | m :: ms => by
    by_cases h : (!m.1.isEmpty && !m.2.isEmpty && decide (m.1 ∈ unknown)) = true
    · have hmem : m.1 ∈ unknown := by
        simp only [Bool.and_eq_true, decide_eq_true_eq] at h
        exact h.2
      have hne : ¬ c = m.1 := fun he => hc (he ▸ hmem)
      simp only [codeImage, h, if_true, if_neg hne]
      exact codeImage_not_mem unknown c hc ms
    · simp only [codeImage, h, if_false]
      exact codeImage_not_mem unknown c hc ms

/-- Claim C6: the confirmed remap rewrites the Transaction_Code column
pointwise — each update touches exactly the rows whose current code is
the entry's old code, applied only for truthy entries whose old code is
in the observed unknown set — and every row whose code is not in the
observed unknown set keeps its code unchanged. -/
theorem claim6_remap_frame (mapping : List (String × String)) (unknown : List String) (rows : List String) :
    update_transaction_codes_in_database mapping unknown rows = rows.map (codeImage mapping unknown) ∧
    List.Forall₂ (fun before after => ¬ before ∈ unknown → after = before) rows
      (update_transaction_codes_in_database mapping unknown rows) := by
  refine ⟨update_codes_eq_map unknown mapping rows, ?_⟩
  rw [update_codes_eq_map unknown mapping rows]
  induction rows with
  | nil => exact List.Forall₂.nil
  | cons r rs ih => exact List.Forall₂.cons (fun hr => codeImage_not_mem unknown r hr mapping) ih

/-- Witness for C6 at the concrete mapping 99 to 21 then 21 to 33,
unknown set {99} and rows [99, 21, 40]: the second entry does not apply,
and the rows with codes 21 and 40 are untouched. -/
theorem claim6_witness :
    update_transaction_codes_in_database [(("99"), ("21")), (("21"), ("33"))] [("99")] [("99"), ("21"), ("40")] =
      [("99"), ("21"), ("40")].map (codeImage [(("99"), ("21")), (("21"), ("33"))] [("99")]) ∧
    List.Forall₂ (fun before after => ¬ before ∈ [("99")] → after = before) [("99"), ("21"), ("40")]
      (update_transaction_codes_in_database [(("99"), ("21")), (("21"), ("33"))] [("99")] [("99"), ("21"), ("40")]) :=
  claim6_remap_frame [(("99"), ("21")), (("21"), ("33"))] [("99")] [("99"), ("21"), ("40")]

/-- A branch header whose classification reports a problem is never
appended to the filtered list by the check_and_filter fold. -/
theorem cf_fold_not_mem (table : List (String × String)) (bh : BhSelRow)
    (hsome : classify_branch bh.branchCode (countBranchTxns table bh.branchCode) (countNonZeroTxns table bh.branchCode) ≠ none) :
    ∀ (l : List BhSelRow) (acc : List BranchProblem × List BhSelRow), ¬ bh ∈ acc.2 →
      ¬ bh ∈ (l.foldl
        (fun acc bh' =>
          match classify_branch bh'.branchCode (countBranchTxns table bh'.branchCode) (countNonZeroTxns table bh'.branchCode) with
          | some p => (acc.1 ++ [p], acc.2)
          | none => (acc.1, acc.2 ++ [bh'])) acc).2
  | [], _, hacc => by simpa using hacc
  | x :: xs, acc, hacc => by
    simp only [List.foldl_cons]
    cases hcx : classify_branch x.branchCode (countBranchTxns table x.branchCode) (countNonZeroTxns table x.branchCode) with
    | some p =>
      exact cf_fold_not_mem table bh hsome xs (acc.1 ++ [p], acc.2) hacc
    | none =>
      refine cf_fold_not_mem table bh hsome xs (acc.1, acc.2 ++ [x]) ?_
      intro hmem
      rcases List.mem_append.mp hmem with h1 | h2
      · exact hacc h1
      · have hbx : bh = x := by simpa using h2
        subst hbx
        exact hsome hcx

/-- Claim C7 (amended): the check_and_filter classification can produce
only two of its three problem flags — "has 0 transactions" and "has only
zero-amount transactions"; the "has only 1 transaction with amount 0"
flag is unreachable, because its guard requires the non-zero count to be
zero, which the preceding branch has already captured. A branch whose
single transaction is zero-amount (total 1, non-zero 0) is flagged as
only zero-amount transactions, and any branch header with those counts
is excluded from the filtered OK list. -/
theorem claim7_classification (bc : String) (total nonZero : Nat) (table : List (String × String)) (bhs : List BhSelRow) (bh : BhSelRow) :
    (∀ s, classify_branch bc total nonZero ≠ some (BranchProblem.singleZeroAmount s)) ∧
    classify_branch bc 1 0 = some (BranchProblem.onlyZeroAmount bc) ∧
    (countBranchTxns table bh.branchCode = 1 → countNonZeroTxns table bh.branchCode = 0 →
      ¬ bh ∈ (check_and_filter table bhs).2.2) := by
  refine ⟨?_, rfl, ?_⟩
  · intro s
    unfold classify_branch
    split
    · simp
    · split
      · simp
      · split
        · next h1 h2 h3 => exact absurd h3.2 h2
        · simp
  · intro h1 h0
    have hsome : classify_branch bh.branchCode (countBranchTxns table bh.branchCode) (countNonZeroTxns table bh.branchCode) ≠ none := by
      rw [h1, h0]
      simp [classify_branch]
    by_cases hbhs : bhs.isEmpty
    · simp [check_and_filter, hbhs]
    · simp only [check_and_filter, hbhs, Bool.false_eq_true, if_false]
      exact cf_fold_not_mem table bh hsome bhs ([], []) (by simp)

/-- Claim C7 counterexample: for the concrete branch 001 whose only
transaction has amount "0" (the only shape that could reach the third
flag), check_and_filter reports the only-zero-amount problem — not the
single-zero-amount-transaction problem — and excludes the branch from the
filtered list, so the third flag is not producible. -/
theorem claim7_counterexample :
    check_and_filter tableW [bhW] = (true, [BranchProblem.onlyZeroAmount ("001")], []) := by
  decide

/-- Witness for C7 (amended) at branch 001 with one zero-amount
transaction. -/
theorem claim7_witness :
    classify_branch ("001") 1 0 ≠ some (BranchProblem.singleZeroAmount ("001")) ∧
    classify_branch ("001") 1 0 = some (BranchProblem.onlyZeroAmount ("001")) ∧
    ¬ bhW ∈ (check_and_filter tableW [bhW]).2.2 :=
  ⟨(claim7_classification ("001") 1 0 tableW [bhW] bhW).1 ("001"),
   (claim7_classification ("001") 1 0 tableW [bhW] bhW).2.1,
   (claim7_classification ("001") 1 0 tableW [bhW] bhW).2.2 (by decide) (by decide)⟩

/-- A found occurrence of a non-empty needle lies inside the haystack. -/
theorem findSubIdx_lt (needle : List Char) (hne : needle.isEmpty = false) :
    ∀ l i, findSubIdx needle l = some i → i < l.length
  | [], i, h => by simp [findSubIdx, hne] at h
  | c :: rest, i, h => by
    rw [show findSubIdx needle (c :: rest) =
        (if needle.isPrefixOf (c :: rest) then some 0
         else (findSubIdx needle rest).map (fun i => i + 1)) from rfl] at h
    split at h
    · injection h with h
      simp [← h]
    · rw [Option.map_eq_some'] at h
      obtain ⟨j, hj, hji⟩ := h
      have := findSubIdx_lt needle hne rest j hj
      simp only [List.length_cons]
      omega

/-- str.find results are at or after the searched-from position. -/
theorem findMarkerFrom_ge (ds marker : List Char) (pos i : Nat) (h : findMarkerFrom ds marker pos = some i) : pos ≤ i := by
  simp only [findMarkerFrom, Option.map_eq_some'] at h
  obtain ⟨j, _, hji⟩ := h
  omega

/-- str.find results for a non-empty marker lie inside the buffer. -/
theorem findMarkerFrom_lt (ds marker : List Char) (pos i : Nat) (hm : marker.isEmpty = false) (h : findMarkerFrom ds marker pos = some i) : i < ds.length := by
  simp only [findMarkerFrom, Option.map_eq_some'] at h
  obtain ⟨j, hj, hji⟩ := h
  have hjl := findSubIdx_lt marker hm (ds.drop pos) j hj
  have hdl : (ds.drop pos).length = ds.length - pos := List.length_drop pos ds
  omega

/-- Case shape of one find_branch_data step: either it stops and produces
no group, or it produces the group at the found branch marker (at or
after the cursor, with the break condition false) followed by the groups
scanned from the cursor advanced past the group. -/
theorem fbd_shape (codesDesc : List (String × String)) (ds : List Char) (p : Nat) (fn : String) :
    find_branch_data codesDesc ds p fn = [] ∨
    ∃ n4, findMarkerFrom ds marker4444 p = some n4 ∧
      fileMarkerBreak (findMarkerFrom ds marker5555 p) n4 = false ∧
      p ≤ n4 ∧ n4 + 180 ≤ ds.length ∧
      find_branch_data codesDesc ds p fn =
        { start := n4, header2 := parse_header2 (pySlice ds n4 (n4 + 180)) fn,
          txns := find_transactions codesDesc ds (n4 + 180) fn } ::
        find_branch_data codesDesc ds (n4 + 180 + (find_transactions codesDesc ds (n4 + 180) fn).length * 180) fn := by
  rw [find_branch_data]
  split
  · split
    · left; rfl
    · next n4 h4 =>
      split
      · left; rfl
      · next hbreak =>
        split
        · next hlen =>
          right
          exact ⟨n4, h4, by simpa using hbreak, findMarkerFrom_ge ds marker4444 p n4 h4, hlen, rfl⟩
        · left; rfl
  · left; rfl

/-- Every group produced from a cursor starts at or after it, and each
group's byte range ends at or before the start of every later group. -/
theorem fbd_aux (codesDesc : List (String × String)) (ds : List Char) (fn : String) :
    ∀ n p, ds.length - p < n →
      List.Forall (fun g => p ≤ g.start) (find_branch_data codesDesc ds p fn) ∧
      List.Pairwise (fun g g' => g.start + 180 + 180 * g.txns.length ≤ g'.start) (find_branch_data codesDesc ds p fn)
  | 0, p, h => absurd h (Nat.not_lt_zero _)
  | n + 1, p, h => by
    rcases fbd_shape codesDesc ds p fn with he | ⟨n4, h4, hbr, hpn, hlen, heq⟩
    · rw [he]
      exact ⟨trivial, List.Pairwise.nil⟩
    · rw [heq]
      have hrec := fbd_aux codesDesc ds fn n (n4 + 180 + (find_transactions codesDesc ds (n4 + 180) fn).length * 180) (by omega)
      constructor
      · rw [List.forall_cons]
        exact ⟨hpn, hrec.1.imp (fun g hg => by omega)⟩
      · refine List.Pairwise.cons ?_ hrec.2
        intro b hb
        have hball := List.forall_iff_forall_mem.mp hrec.1 b hb
        dsimp only
        omega

/-- Claim C4: the byte ranges of the successive branch groups produced by
find_branch_data are strictly increasing and disjoint: each group's range
[start, start + 180 + 180 * txns.length) ends at or before the start of
every later group, the starts strictly increase, and every group starts
at or after the scan cursor (no byte before the cursor is assigned to a
group). -/
theorem claim4_disjoint_groups (codesDesc : List (String × String)) (ds : List Char) (p : Nat) (fn : String) :
    List.Pairwise (fun g g' => g.start + 180 + 180 * g.txns.length ≤ g'.start) (find_branch_data codesDesc ds p fn) ∧
    List.Pairwise (fun g g' => g.start < g'.start) (find_branch_data codesDesc ds p fn) ∧
    List.Forall (fun g => p ≤ g.start) (find_branch_data codesDesc ds p fn) := by
  have h := fbd_aux codesDesc ds fn (ds.length - p + 1) p (by omega)
  exact ⟨h.2, h.2.imp (fun hab => by omega), h.1⟩

/-- Claim C9: parse_dataset produces at most one file group (only the
first file-header marker can start one), and branch scanning returns no
group at all — ignoring the whole remainder of the buffer — whenever a
file-header marker occurs at or after the cursor strictly before the next
branch-header marker. -/
theorem claim9_single_group (codesDesc : List (String × String)) (ds : List Char) (fn : String) :
    (parse_dataset codesDesc ds fn).length ≤ 1 ∧
    (∀ p n4 n5, findMarkerFrom ds marker4444 p = some n4 →
      findMarkerFrom ds marker5555 p = some n5 → n5 < n4 →
      find_branch_data codesDesc ds p fn = []) := by
  constructor
  · unfold parse_dataset
    split
    · simp
    · split <;> simp
  · intro p n4 n5 h4 h5 hlt
    rcases fbd_shape codesDesc ds p fn with he | ⟨n4h, h4h, hbr, _, _, _⟩
    · exact he
    · rw [h4] at h4h
      injection h4h with hn
      subst hn
      rw [h5] at hbr
      simp [fileMarkerBreak, hlt] at hbr

/-- Witness for C9: in the concrete buffer "55554444" the file-header
marker at 0 precedes the branch marker at 4, so branch scanning from 0
yields no group. -/
theorem claim9_witness :
    (parse_dataset [] dsW ("f")).length ≤ 1 ∧ find_branch_data [] dsW 0 ("f") = [] :=
  ⟨(claim9_single_group [] dsW ("f")).1,
   (claim9_single_group [] dsW ("f")).2 0 4 0 (by decide) (by decide) (by decide)⟩

/-- Adjacent slices concatenate to the enclosing slice. -/
theorem pySlice_chain (l : List Char) (a b c : Nat) (h1 : a ≤ b) (h2 : b ≤ c) :
    pySlice l a b ++ pySlice l b c = pySlice l a c := by
  have e : ∀ x y, pySlice l x y = (l.drop x).take (y - x) := fun x y => List.drop_take y x l
  rw [e a b, e b c, e a c]
  rw [show l.drop b = (l.drop a).drop (b - a) by
        rw [List.drop_drop]
        congr 1
        omega]
  rw [← List.take_add]
  congr 1
  omega

/-- Claim C8 (amended): for every 180-character transaction line, decoding
the line with parse_data_record and re-concatenating the positional field
substrings in offset order rebuilds exactly the first 150 characters of
the line — the fields are raw substrings (leading zeros preserved), but
the trailing 30 characters (offsets 150 to 180) are captured by no field,
so the round trip is the identity only on the 0-150 region. -/
theorem claim8_decode_reencode (codesDesc : List (String × String)) (fn : String) (line : List Char)
    (h : line.length = 180) :
    concatTxnFields (parse_data_record codesDesc line fn) = line.take 150 := by
  show pySlice line 0 4 ++ (pySlice line 4 8 ++ (pySlice line 8 11 ++ (pySlice line 11 23 ++
    (pySlice line 23 43 ++ (pySlice line 43 45 ++ (pySlice line 45 47 ++ (pySlice line 47 48 ++
    (pySlice line 48 54 ++ (pySlice line 54 66 ++ (pySlice line 66 69 ++ (pySlice line 69 73 ++
    (pySlice line 73 76 ++ (pySlice line 76 88 ++ (pySlice line 88 108 ++ (pySlice line 108 123 ++
    (pySlice line 123 138 ++ (pySlice line 138 144 ++ pySlice line 144 150))))))))))))))))) =
    line.take 150
  rw [pySlice_chain line 138 144 150 (by omega) (by omega)]
  rw [pySlice_chain line 123 138 150 (by omega) (by omega)]
  rw [pySlice_chain line 108 123 150 (by omega) (by omega)]
  rw [pySlice_chain line 88 108 150 (by omega) (by omega)]
  rw [pySlice_chain line 76 88 150 (by omega) (by omega)]
  rw [pySlice_chain line 73 76 150 (by omega) (by omega)]
  rw [pySlice_chain line 69 73 150 (by omega) (by omega)]
  rw [pySlice_chain line 66 69 150 (by omega) (by omega)]
  rw [pySlice_chain line 54 66 150 (by omega) (by omega)]
  rw [pySlice_chain line 48 54 150 (by omega) (by omega)]
  rw [pySlice_chain line 47 48 150 (by omega) (by omega)]
  rw [pySlice_chain line 45 47 150 (by omega) (by omega)]
  rw [pySlice_chain line 43 45 150 (by omega) (by omega)]
  rw [pySlice_chain line 23 43 150 (by omega) (by omega)]
  rw [pySlice_chain line 11 23 150 (by omega) (by omega)]
  rw [pySlice_chain line 8 11 150 (by omega) (by omega)]
  rw [pySlice_chain line 4 8 150 (by omega) (by omega)]
  rw [pySlice_chain line 0 4 150 (by omega) (by omega)]
  simp [pySlice]

set_option maxRecDepth 4000 in
/-- Witness for C8 (amended) at the concrete 180-character line "0000"
followed by 176 'X' characters. -/
theorem claim8_witness :
    lineW.length = 180 ∧ concatTxnFields (parse_data_record [] lineW ("f")) = lineW.take 150 :=
  ⟨by decide, claim8_decode_reencode [] ("f") lineW (by decide)⟩

set_option maxRecDepth 4000 in
/-- Claim C8 counterexample: for the concrete valid 180-character
transaction line "0000" followed by 176 'X' characters, re-concatenating
the decoded field substrings in offset order yields only the first 150
characters, which differs from the whole line: decode then re-encode is
not the identity on the line. -/
theorem claim8_counterexample :
    lineW.length = 180 ∧ concatTxnFields (parse_data_record [] lineW ("f")) ≠ lineW := by
  decide
